import Mathlib

/-
Verification of the licensing data layer (`database_handler.py`, class
`DatabaseHandler`) of the LicensySlashCommands repository.

The SQLite database reached through one `aiosqlite` connection is embedded
shallowly:

* a database file is a `DB`: the list of created tables plus the rows of the
  three tables `GUILDS`, `LICENSED_MEMBERS` and `GUILD_LICENSES`, each row a
  structure with the columns of the schema (`TEXT` columns holding discord ids
  are modelled as `Int`, since the code always binds Python ints and SQLite
  TEXT affinity turns an integer into its decimal text, which preserves and
  reflects equality; nullable columns are `Option`);
* the single connection is a `Conn`: the `committed` content of the file and
  the `pending` content seen by the open implicit transaction.  `execute` of a
  DML statement changes `pending` only; `commit` makes `pending` the new
  `committed` content.  Reads on the same connection see `pending`
  (sqlite3 connections read their own uncommitted writes);
* each method of `DatabaseHandler` becomes a function from its arguments and
  a `Conn` to a pair of an `Except PyExc` result - the Python exceptions the
  body can raise - and the `Conn` the connection is left in (a raised
  exception does not roll the open transaction back, so the function also
  returns the connection state on the error path);
* the filesystem seen by `_get_connection` / `_create_database` is a map
  from paths to database files.
-/

/-- Python exceptions the embedded methods can raise:
`integrityError` is `aiosqlite.IntegrityError` (uniqueness violation on
insert), `typeError` is `TypeError` (subscripting `None` after an empty
`fetchone`, or `int(None)`), `operationalError` is
`aiosqlite.OperationalError` (for example `CREATE TABLE` on an existing
table name). -/
inductive PyExc where
  | integrityError
  | typeError
  | operationalError
  deriving DecidableEq, Repr

/-- Row of table `GUILDS` (column `PREFIX` is `prefix_col`). -/
structure GuildRow where
  guild_id : Int
  prefix_col : Option String := none
  enable_log_channel : Int := 0
  log_channel_id : Option Int := none
  enable_join_role : Int := 0
  join_role_id : Option Int := none
  default_license_role_id : Option Int := none
  default_license_duration_hours : Int := 720
  deriving DecidableEq, Repr

/-- Row of table `LICENSED_MEMBERS`. -/
structure LicensedMemberRow where
  member_id : Int
  guild_id : Int
  expiration_date : Option String := none
  licensed_role_id : Option Int := none
  deriving DecidableEq, Repr

/-- Row of table `GUILD_LICENSES` (`LICENSE TEXT PRIMARY KEY`,
`GUILD_ID`, `LICENSED_ROLE_ID`; the code always binds a role id on insert,
so `licensed_role_id` is not optional). -/
structure GuildLicenseRow where
  license : String
  guild_id : Int
  licensed_role_id : Int
  deriving DecidableEq, Repr

/-- Content of one database file: the names of the created tables and the
rows of the three tables, in storage (insertion) order. -/
structure DB where
  tables : List String := []
  guilds : List GuildRow := []
  licensed_members : List LicensedMemberRow := []
  guild_licenses : List GuildLicenseRow := []
  deriving DecidableEq, Repr

def emptyDB : DB := {}

/-- The `aiosqlite` connection: the committed file content and the content
seen by the connection's open implicit transaction. -/
structure Conn where
  committed : DB
  pending : DB
  deriving DecidableEq, Repr

/-- Opening a connection on a file: no transaction is open yet. -/
def Conn.fromFile (db : DB) : Conn := ⟨db, db⟩

/-- The `connection.commit()` call: the pending content becomes durable. -/
def Conn.commit (c : Conn) : Conn := ⟨c.pending, c.pending⟩

/-- The filesystem under the storage directory: each path may hold a
database file. -/
def FS := String → Option DB

def FS.set (fs : FS) (path : String) (db : DB) : FS :=
  fun p => if p = path then some db else fs p

/-- `DatabaseHandler.DB_PATH`. -/
def DB_PATH : String := "databases/"

/-- `DatabaseHandler.DB_EXTENSION`. -/
def DB_EXTENSION : String := ".sqlite3"

/-- `DatabaseHandler._construct_path`: string concatenation of the storage
directory, the logical name and the extension. -/
def _construct_path (db_name : String) : String :=
  DB_PATH ++ db_name ++ DB_EXTENSION

/-- One `CREATE TABLE name ...` statement: fails with an
`OperationalError` when the table already exists, otherwise records the
table. -/
def createTable (db : DB) (name : String) : Except PyExc DB :=
  if name ∈ db.tables then .error .operationalError
  else .ok { db with tables := db.tables ++ [name] }

/-- The three `CREATE TABLE` statements of `_create_database`, in source
order. -/
def createSchema (db : DB) : Except PyExc DB := do
  let d1 ← createTable db "GUILDS"
  let d2 ← createTable d1 "LICENSED_MEMBERS"
  createTable d2 "GUILD_LICENSES"

/-- `DatabaseHandler._create_database`: connect (which creates an empty file
at `path`), run the three `CREATE TABLE` statements, commit.  On success the
committed schema is written to the file; if a statement fails the exception
propagates and only the empty file remains on disk. -/
def _create_database (fs : FS) (path : String) : Except PyExc Conn × FS :=
  match createSchema emptyDB with
  | .error e => (.error e, fs.set path emptyDB)
  | .ok d => (.ok (Conn.fromFile d), fs.set path d)

/-- `DatabaseHandler._get_connection`: if a file exists at the constructed
path, open it as-is (no table creation); otherwise bootstrap a fresh
database there. -/
def _get_connection (fs : FS) (db_name : String) : Except PyExc Conn × FS :=
  let path := _construct_path db_name
  match fs path with
  | some db => (.ok (Conn.fromFile db), fs)
  | none => _create_database fs path

/-- Whether some row of `GUILD_LICENSES` holds this license code. -/
def DB.hasLicense (db : DB) (l : String) : Bool :=
  db.guild_licenses.any (fun r => r.license == l)

/-- One `INSERT INTO GUILD_LICENSES(LICENSE, GUILD_ID, LICENSED_ROLE_ID)
VALUES(?,?,?)`: the `LICENSE` primary key (and the `UNIQUE(LICENSE,
GUILD_ID)` constraint it subsumes) rejects a duplicate code with an
`IntegrityError`; otherwise the row is appended in storage order. -/
def insertGuildLicense (db : DB) (l : String) (g rid : Int) : Except PyExc DB :=
  if db.hasLicense l then .error .integrityError
  else .ok { db with guild_licenses := db.guild_licenses ++ [⟨l, g, rid⟩] }

/-- The insert loop of `generate_guild_licenses`: executes the insert for
each code in order; the first `IntegrityError` stops the loop, leaving the
successfully inserted codes in the pending transaction. -/
def execInsertLoop (licenses : List String) (g rid : Int) (db : DB) :
    Except PyExc Unit × DB :=
  match licenses with
  | [] => (.ok (), db)
  | l :: rest =>
    match insertGuildLicense db l g rid with
    | .error e => (.error e, db)
    | .ok db1 => execInsertLoop rest g rid db1

/-- Modelled from the spec: `helpers.licence_generator.generate`, the
external license-code generator, is not part of this repository's source.
The spec describes it as a pure function from a count to a sequence of
unique strings, so it is carried as an explicit function parameter `gen`;
`GeneratorSpec gen n` states what the spec guarantees about its output for
the count `n`: as many codes as asked and no duplicates among them. -/
def GeneratorSpec (gen : Int → List String) (n : Int) : Prop :=
  (gen n).length = n.toNat ∧ (gen n).Nodup

/-- `DatabaseHandler.generate_guild_licenses`: obtain `number` codes from
the generator, execute one insert per code, then commit once; the generated
codes are returned.  An `IntegrityError` inside the loop propagates before
the commit, so the connection keeps the successfully inserted prefix of the
batch in its still-open transaction. -/
def generate_guild_licenses (gen : Int → List String) (number : Int)
    (guild_id default_license_role_id : Int) (c : Conn) :
    Except PyExc (List String) × Conn :=
  let licenses := gen number
  match execInsertLoop licenses guild_id default_license_role_id c.pending with
  | (.error e, db1) => (.error e, { c with pending := db1 })
  | (.ok (), db1) => (.ok licenses, ⟨db1, db1⟩)

/-- `DatabaseHandler.drop_guild_license`: `DELETE FROM GUILD_LICENSES WHERE
LICENSE=? AND GUILD_ID=?` followed by a commit.  Deleting zero rows is not
an error. -/
def drop_guild_license (license : String) (guild_id : Int) (c : Conn) :
    Except PyExc Unit × Conn :=
  let db1 := { c.pending with
    guild_licenses := c.pending.guild_licenses.filter
      (fun r => !(r.license == license && r.guild_id == guild_id)) }
  (.ok (), ⟨db1, db1⟩)

/-- `DatabaseHandler.get_default_guild_license_role_id`: `SELECT
DEFAULT_LICENSE_ROLE_ID FROM GUILDS WHERE GUILD_ID=?`, `fetchone`, then
`int(row[0])`.  When no row matches, `row` is `None` and `row[0]` raises a
`TypeError`; when the column is NULL, `int(None)` raises a `TypeError`. -/
def get_default_guild_license_role_id (guild_id : Int) (c : Conn) :
    Except PyExc Int × Conn :=
  match c.pending.guilds.find? (fun r => r.guild_id == guild_id) with
  | none => (.error .typeError, c)
  | some row =>
    match row.default_license_role_id with
    | none => (.error .typeError, c)
    | some v => (.ok v, c)

/-- `DatabaseHandler.get_license_role_id`: `SELECT LICENSED_ROLE_ID FROM
GUILD_LICENSES WHERE LICENSE=?`, `fetchone`, then `int(row[0])`.  When the
code is absent, `row` is `None` and `row[0]` raises a `TypeError`. -/
def get_license_role_id (license : String) (c : Conn) :
    Except PyExc Int × Conn :=
  match c.pending.guild_licenses.find? (fun r => r.license == license) with
  | none => (.error .typeError, c)
  | some row => (.ok row.licensed_role_id, c)

/-- `DatabaseHandler.get_guild_licenses`: `SELECT LICENSE FROM
GUILD_LICENSES WHERE GUILD_ID=? AND LICENSED_ROLE_ID=? LIMIT ?` collected
into a list.  Per SQLite semantics a negative `LIMIT` value means no bound
on the number of returned rows. -/
def get_guild_licenses (number : Int) (guild_id license_role_id : Int)
    (c : Conn) : Except PyExc (List String) × Conn :=
  let matching := (c.pending.guild_licenses.filter
      (fun r => r.guild_id == guild_id && r.licensed_role_id == license_role_id)).map
      (fun r => r.license)
  let limited := if number < 0 then matching else matching.take number.toNat
  (.ok limited, c)

/-
Helper lemmas about the embedded operations.
-/

/-- A row of the filtered `GUILD_LICENSES` table survives the `DELETE` of
`drop_guild_license` exactly when it does not match both keys. -/
theorem drop_keeps_row_iff (l : String) (g : Int) (c : Conn) (r : GuildLicenseRow) :
    r ∈ ((drop_guild_license l g c).2).pending.guild_licenses ↔
      r ∈ c.pending.guild_licenses ∧ ¬(r.license = l ∧ r.guild_id = g) := by
  simp only [drop_guild_license, List.mem_filter, Bool.not_eq_true',
    Bool.and_eq_false_iff, beq_eq_false_iff_ne, ne_eq]
  tauto

/-- When no element of the first list satisfies the predicate, `find?` on
the concatenation searches the second list. -/
theorem find?_append_of_none {α : Type} (p : α → Bool) (l1 l2 : List α)
    (h : ∀ x ∈ l1, p x = false) :
    (l1 ++ l2).find? p = l2.find? p := by
  rw [List.find?_append]
  have h1 : l1.find? p = none := by
    rw [List.find?_eq_none]
    intro x hx
    simp [h x hx]
  rw [h1, Option.none_or]

/-- The insert loop succeeds on a batch of pairwise-distinct codes that are
all absent from the table, appending one row per code in order. -/
theorem execInsertLoop_ok (g rid : Int) :
    ∀ (ls : List String) (db : DB),
      (∀ l ∈ ls, db.hasLicense l = false) → ls.Nodup →
      execInsertLoop ls g rid db =
        (.ok (), { db with guild_licenses :=
          db.guild_licenses ++ ls.map (fun l => ⟨l, g, rid⟩) }) := by
  intro ls
  induction ls with
  | nil => intro db _ _; simp [execInsertLoop]
  | cons a rest ih =>
    intro db habs hnd
    have ha : db.hasLicense a = false := habs a (List.mem_cons_self a rest)
    have hstep : insertGuildLicense db a g rid =
        .ok { db with guild_licenses := db.guild_licenses ++ [⟨a, g, rid⟩] } := by
      simp [insertGuildLicense, ha]
    have habs' : ∀ l ∈ rest,
        ({ db with guild_licenses := db.guild_licenses ++ [⟨a, g, rid⟩] } : DB).hasLicense l
          = false := by
      intro l hl
      have hdb : db.hasLicense l = false := habs l (List.mem_cons_of_mem a hl)
      have hne : a ≠ l := by
        intro heq
        exact (List.nodup_cons.mp hnd).1 (heq ▸ hl)
      simp only [DB.hasLicense, List.any_append] at hdb ⊢
      simp only [hdb, List.any_cons, List.any_nil, Bool.or_false, Bool.false_or]
      simpa using hne
    have hnd' : rest.Nodup := (List.nodup_cons.mp hnd).2
    calc execInsertLoop (a :: rest) g rid db
        = execInsertLoop rest g rid
            { db with guild_licenses := db.guild_licenses ++ [⟨a, g, rid⟩] } := by
          simp [execInsertLoop, hstep]
      _ = _ := by
          rw [ih _ habs' hnd']
          simp [List.append_assoc]

/-- In the rows built from a batch of codes all sharing one guild and role,
`find?` by a code of the batch returns that code's row. -/
theorem find?_generated_rows (g rid : Int) (ls : List String) (l : String)
    (hl : l ∈ ls) :
    (ls.map (fun s => (⟨s, g, rid⟩ : GuildLicenseRow))).find?
      (fun r => r.license == l) = some ⟨l, g, rid⟩ := by
  induction ls with
  | nil => cases hl
  | cons a rest ih =>
    by_cases h : a = l
    · subst h
      simp
    · have hl' : l ∈ rest := by
        cases List.mem_cons.mp hl with
        | inl heq => exact absurd heq.symm h
        | inr hm => exact hm
      simpa [h] using ih hl'

/-
The claims.
-/

/-- C8: for every logical database name, `_construct_path` resolves the
storage location to exactly the fixed relative directory `databases/`
followed by the name followed by the fixed extension `.sqlite3`. -/
theorem construct_path_concat (n : String) :
    _construct_path n = DB_PATH ++ n ++ DB_EXTENSION ∧
    _construct_path n = "databases/" ++ n ++ ".sqlite3" :=
  ⟨rfl, rfl⟩

/-- C10: the three query operations `get_default_guild_license_role_id`,
`get_license_role_id` and `get_guild_licenses` are read-only: for every
input and connection state, the connection they return is the one they were
given, on the success path and on the error path alike. -/
theorem query_operations_read_only (gid rid lim : Int) (l : String) (c : Conn) :
    (get_default_guild_license_role_id gid c).2 = c ∧
    (get_license_role_id l c).2 = c ∧
    (get_guild_licenses lim gid rid c).2 = c := by
  refine ⟨?_, ?_, rfl⟩
  · unfold get_default_guild_license_role_id
    cases c.pending.guilds.find? (fun r => r.guild_id == gid) with
    | none => rfl
    | some row =>
      dsimp only
      cases row.default_license_role_id <;> rfl
  · unfold get_license_role_id
    cases c.pending.guild_licenses.find? (fun r => r.license == l) <;> rfl

/-- C4: redeeming a license code absent from `GUILD_LICENSES` is a no-op:
`drop_guild_license` raises no error and, starting from a connection with
no uncommitted changes, returns the stored state unchanged. -/
theorem drop_missing_license_noop (l : String) (g : Int) (c : Conn)
    (hq : c.pending = c.committed)
    (habs : ∀ r ∈ c.pending.guild_licenses, r.license ≠ l) :
    drop_guild_license l g c = (.ok (), c) := by
  have hfilter : c.pending.guild_licenses.filter
      (fun r => !(r.license == l && r.guild_id == g)) = c.pending.guild_licenses := by
    rw [List.filter_eq_self]
    intro r hr
    have : (r.license == l) = false := beq_eq_false_iff_ne.mpr (habs r hr)
    simp [this]
  obtain ⟨dbc, dbp⟩ := c
  simp only at hq
  subst hq
  simp only [drop_guild_license] at hfilter ⊢
  rw [hfilter]

/-- C9: deleting with the wrong guild id deletes nothing: when every stored
row holding the code has guild id `g` and `gq ≠ g`, `drop_guild_license`
with `gq` raises no error and, starting from a connection with no
uncommitted changes, returns the stored state unchanged (every row
remains). -/
theorem drop_wrong_guild_frame (l : String) (g gq : Int) (c : Conn)
    (hq : c.pending = c.committed)
    (hrows : ∀ r ∈ c.pending.guild_licenses, r.license = l → r.guild_id = g)
    (hne : gq ≠ g) :
    drop_guild_license l gq c = (.ok (), c) := by
  have hfilter : c.pending.guild_licenses.filter
      (fun r => !(r.license == l && r.guild_id == gq)) = c.pending.guild_licenses := by
    rw [List.filter_eq_self]
    intro r hr
    by_cases hl : r.license = l
    · have hg : r.guild_id = g := hrows r hr hl
      have : (r.guild_id == gq) = false := by
        rw [hg]
        exact beq_eq_false_iff_ne.mpr (Ne.symm hne)
      simp [this]
    · have : (r.license == l) = false := beq_eq_false_iff_ne.mpr hl
      simp [this]
  obtain ⟨dbc, dbp⟩ := c
  simp only at hq
  subst hq
  simp only [drop_guild_license] at hfilter ⊢
  rw [hfilter]

/-- C5: `get_default_guild_license_role_id` never returns an integer when
the lookup cannot produce one: if no `GUILDS` row has the guild id it fails
(the fetched row is `None` and subscripting it raises a `TypeError`), and if
the matching row's `DEFAULT_LICENSE_ROLE_ID` column is NULL it also fails
(`int(None)` raises a `TypeError`), leaving the state unchanged. -/
theorem get_default_guild_license_role_id_fails (gid : Int) (c : Conn) :
    ((∀ r ∈ c.pending.guilds, r.guild_id ≠ gid) →
      get_default_guild_license_role_id gid c = (.error .typeError, c)) ∧
    (∀ row, c.pending.guilds.find? (fun r => r.guild_id == gid) = some row →
      row.default_license_role_id = none →
      get_default_guild_license_role_id gid c = (.error .typeError, c)) := by
  constructor
  · intro h
    have hnone : c.pending.guilds.find? (fun r => r.guild_id == gid) = none := by
      rw [List.find?_eq_none]
      intro r hr
      simp [h r hr]
    unfold get_default_guild_license_role_id
    rw [hnone]
  · intro row hfind hnull
    unfold get_default_guild_license_role_id
    rw [hfind]
    dsimp only
    rw [hnull]

/-- C3: redeeming a stored license code removes its row: when every stored
row holding code `l` carries its stored guild id `g`, `drop_guild_license l
g` leaves no row with that code, and a subsequent `get_license_role_id` on
the same code fails (the `fetchone` misses and the code raises a
`TypeError` instead of returning a role id). -/
theorem drop_then_get_license_role_fails (l : String) (g : Int) (c : Conn)
    (_hmem : ∃ r ∈ c.pending.guild_licenses, r.license = l)
    (hrows : ∀ r ∈ c.pending.guild_licenses, r.license = l → r.guild_id = g) :
    (∀ r ∈ ((drop_guild_license l g c).2).pending.guild_licenses, r.license ≠ l) ∧
    (get_license_role_id l (drop_guild_license l g c).2).1 = .error .typeError := by
  have hgone : ∀ r ∈ ((drop_guild_license l g c).2).pending.guild_licenses,
      r.license ≠ l := by
    intro r hr hl
    rcases (drop_keeps_row_iff l g c r).mp hr with ⟨hmem', hnot⟩
    exact hnot ⟨hl, hrows r hmem' hl⟩
  refine ⟨hgone, ?_⟩
  have hfind : ((drop_guild_license l g c).2).pending.guild_licenses.find?
      (fun r => r.license == l) = none := by
    rw [List.find?_eq_none]
    intro r hr
    simpa using hgone r hr
  unfold get_license_role_id
  rw [hfind]

/-- C2: when the external generator hands out `n > 0` pairwise-distinct
codes that are all absent from `GUILD_LICENSES`, `generate_guild_licenses`
succeeds: it returns exactly those `n` distinct codes in generator order,
and on the resulting connection each returned code is retrievable through
`get_license_role_id`, yielding the linked role id. -/
theorem generate_guild_licenses_ok (gen : Int → List String) (n gid rid : Int)
    (c : Conn) (hn : 0 < n) (hspec : GeneratorSpec gen n)
    (hfresh : ∀ l ∈ gen n, c.pending.hasLicense l = false) :
    ∃ c', generate_guild_licenses gen n gid rid c = (.ok (gen n), c') ∧
      ((gen n).length : Int) = n ∧ (gen n).Nodup ∧
      ∀ l ∈ gen n, get_license_role_id l c' = (.ok rid, c') := by
  obtain ⟨hlen, hnd⟩ := hspec
  have hloop := execInsertLoop_ok gid rid (gen n) c.pending hfresh hnd
  refine ⟨⟨{ c.pending with guild_licenses :=
      c.pending.guild_licenses ++ (gen n).map (fun l => ⟨l, gid, rid⟩) },
    { c.pending with guild_licenses :=
      c.pending.guild_licenses ++ (gen n).map (fun l => ⟨l, gid, rid⟩) }⟩,
    ?_, ?_, hnd, ?_⟩
  · unfold generate_guild_licenses
    dsimp only
    rw [hloop]
  · rw [hlen, Int.toNat_of_nonneg (le_of_lt hn)]
  · intro l hl
    have hold : ∀ r ∈ c.pending.guild_licenses, (r.license == l) = false := by
      intro r hr
      have h1 := hfresh l hl
      simp only [DB.hasLicense, List.any_eq_false] at h1
      simpa using h1 r hr
    unfold get_license_role_id
    dsimp only
    rw [find?_append_of_none _ _ _ hold, find?_generated_rows gid rid (gen n) l hl]

/-- Connection used to demonstrate the behavior of `get_guild_licenses`:
one stored license `"a"` for guild 1 and role 7. -/
def limitDemoConn : Conn :=
  Conn.fromFile { emptyDB with guild_licenses := [⟨"a", 1, 7⟩] }

/-- C6 counterexample: SQLite treats a negative `LIMIT` as unbounded, so
with limit `-1` the stored matching code is returned and the returned list
is longer than the limit, refuting "at most L codes" for every limit L. -/
theorem get_guild_licenses_negative_limit_cex :
    (get_guild_licenses (-1) 1 7 limitDemoConn).1 = .ok ["a"] ∧
    ¬(((["a"] : List String).length : Int) ≤ -1) :=
  ⟨rfl, by decide⟩

/-- C6 (amended to non-negative limits): for every limit `n ≥ 0`,
`get_guild_licenses` returns, without error and without changing the state,
at most `n` codes, each of them stored in `GUILD_LICENSES` for exactly the
requested guild and role; when no stored row matches, it returns the empty
list. -/
theorem get_guild_licenses_bounded (n gid rid : Int) (c : Conn) (hn : 0 ≤ n) :
    ∃ ls, get_guild_licenses n gid rid c = (.ok ls, c) ∧
      (ls.length : Int) ≤ n ∧
      (∀ l ∈ ls, ∃ r ∈ c.pending.guild_licenses,
        r.license = l ∧ r.guild_id = gid ∧ r.licensed_role_id = rid) ∧
      ((∀ r ∈ c.pending.guild_licenses,
          ¬(r.guild_id = gid ∧ r.licensed_role_id = rid)) → ls = []) := by
  have hnneg : ¬n < 0 := not_lt.mpr hn
  refine ⟨((c.pending.guild_licenses.filter
      (fun r => r.guild_id == gid && r.licensed_role_id == rid)).map
      (fun r => r.license)).take n.toNat, ?_, ?_, ?_, ?_⟩
  · unfold get_guild_licenses
    dsimp only
    rw [if_neg hnneg]
  · have h1 : (((c.pending.guild_licenses.filter
        (fun r => r.guild_id == gid && r.licensed_role_id == rid)).map
        (fun r => r.license)).take n.toNat).length ≤ n.toNat := by
      rw [List.length_take]
      exact Nat.min_le_left _ _
    calc ((((c.pending.guild_licenses.filter
          (fun r => r.guild_id == gid && r.licensed_role_id == rid)).map
          (fun r => r.license)).take n.toNat).length : Int)
        ≤ (n.toNat : Int) := Int.ofNat_le.mpr h1
      _ = n := Int.toNat_of_nonneg hn
  · intro l hl
    have hl2 := List.mem_of_mem_take hl
    rcases List.mem_map.mp hl2 with ⟨r, hrmem, hrl⟩
    rcases List.mem_filter.mp hrmem with ⟨hrmem2, hpred⟩
    simp only [Bool.and_eq_true, beq_iff_eq] at hpred
    exact ⟨r, hrmem2, hrl, hpred.1, hpred.2⟩
  · intro hnone
    have hnil : c.pending.guild_licenses.filter
        (fun r => r.guild_id == gid && r.licensed_role_id == rid) = [] := by
      rw [List.filter_eq_nil_iff]
      intro r hr
      have := hnone r hr
      simp only [Bool.and_eq_true, beq_iff_eq]
      tauto
    rw [hnil]
    simp

/-- The schema written to a fresh file by `_create_database`: the three
tables of the bootstrap, no rows. -/
def schemaDB : DB :=
  { emptyDB with tables := ["GUILDS", "LICENSED_MEMBERS", "GUILD_LICENSES"] }

/-- C7: opening a store on a fresh path bootstraps the three-table schema
once; a second open on the resulting filesystem finds the file, runs no
table creation (the filesystem and connection come back exactly as the
first open left them, with no duplicate-table `OperationalError`), and
yields the same three-table schema. -/
theorem open_twice_idempotent (fs : FS) (name : String)
    (hfresh : fs (_construct_path name) = none) :
    ∃ c1 fs1, _get_connection fs name = (.ok c1, fs1) ∧
      c1.committed.tables = ["GUILDS", "LICENSED_MEMBERS", "GUILD_LICENSES"] ∧
      c1.pending = c1.committed ∧
      _get_connection fs1 name = (.ok c1, fs1) := by
  refine ⟨Conn.fromFile schemaDB, FS.set fs (_construct_path name) schemaDB,
    ?_, rfl, rfl, ?_⟩
  · unfold _get_connection
    dsimp only
    rw [hfresh]
    unfold _create_database
    have hschema : createSchema emptyDB = .ok schemaDB := rfl
    rw [hschema]
  · unfold _get_connection
    dsimp only
    have hhit : (FS.set fs (_construct_path name) schemaDB) (_construct_path name)
        = some schemaDB := by
      unfold FS.set
      simp
    rw [hhit]

/-- Connection exhibiting a duplicate inside a generation batch: code `"a"`
is already stored for guild 1 with role 5. -/
def dupDemoConn : Conn :=
  Conn.fromFile { emptyDB with guild_licenses := [⟨"a", 1, 5⟩] }

/-- Generator batch handing out a fresh code `"b"` followed by the already
stored code `"a"`. -/
def dupDemoGen : Int → List String := fun _ => ["b", "a"]

/-- C1: the insert batch of `generate_guild_licenses` is not atomic.  With
`"a"` already stored and the generator batch `["b", "a"]`, the call raises
the uniqueness `IntegrityError` and the committed file is unchanged, but the
successfully inserted prefix `"b"` stays in the connection's still-open
transaction: the pending state differs from the original, a same-connection
`get_license_role_id "b"` already sees the row, and the commit of the next
(unrelated) `drop_guild_license` makes the partial row durable. -/
theorem generate_guild_licenses_not_atomic :
    (generate_guild_licenses dupDemoGen 2 1 5 dupDemoConn).1
      = .error .integrityError ∧
    (generate_guild_licenses dupDemoGen 2 1 5 dupDemoConn).2.committed
      = dupDemoConn.committed ∧
    (generate_guild_licenses dupDemoGen 2 1 5 dupDemoConn).2.pending
      ≠ dupDemoConn.pending ∧
    (get_license_role_id "b"
      (generate_guild_licenses dupDemoGen 2 1 5 dupDemoConn).2).1 = .ok 5 ∧
    (drop_guild_license "c" 2
      (generate_guild_licenses dupDemoGen 2 1 5 dupDemoConn).2).2.committed.hasLicense
      "b" = true := by
  refine ⟨rfl, rfl, ?_, rfl, rfl⟩
  decide

/-
Witnesses: each hypothesis-bearing claim theorem applied at a concrete
input.
-/

/-- Witness for C2: two fresh distinct codes on an empty store. -/
theorem generate_guild_licenses_ok_witness :
    ∃ c', generate_guild_licenses (fun _ => ["w1", "w2"]) 2 1 7
        (Conn.fromFile emptyDB) = (.ok ["w1", "w2"], c') ∧
      (((["w1", "w2"] : List String).length : Int)) = 2 ∧
      (["w1", "w2"] : List String).Nodup ∧
      ∀ l ∈ (["w1", "w2"] : List String),
        get_license_role_id l c' = (.ok 7, c') :=
  generate_guild_licenses_ok (fun _ => ["w1", "w2"]) 2 1 7 (Conn.fromFile emptyDB)
    (by decide) ⟨rfl, by decide⟩ (fun _ _ => rfl)

/-- Witness for C3: redeeming the stored code `"k"` of guild 3. -/
theorem drop_then_get_license_role_fails_witness :
    (∀ r ∈ ((drop_guild_license "k" 3
        (Conn.fromFile { emptyDB with
          guild_licenses := [⟨"k", 3, 9⟩] })).2).pending.guild_licenses,
      r.license ≠ "k") ∧
    (get_license_role_id "k" (drop_guild_license "k" 3
        (Conn.fromFile { emptyDB with
          guild_licenses := [⟨"k", 3, 9⟩] })).2).1 = .error .typeError :=
  drop_then_get_license_role_fails "k" 3
    (Conn.fromFile { emptyDB with guild_licenses := [⟨"k", 3, 9⟩] })
    (by decide) (by decide)

/-- Witness for C4: redeeming the absent code `"other"` on a store holding
only `"k"`. -/
theorem drop_missing_license_noop_witness :
    drop_guild_license "other" 3
        (Conn.fromFile { emptyDB with guild_licenses := [⟨"k", 3, 9⟩] }) =
      (.ok (), Conn.fromFile { emptyDB with guild_licenses := [⟨"k", 3, 9⟩] }) :=
  drop_missing_license_noop "other" 3
    (Conn.fromFile { emptyDB with guild_licenses := [⟨"k", 3, 9⟩] })
    rfl (by decide)

/-- Witness for C5: guild 999 has no configuration row, and the row of
guild 5 has a NULL default role column. -/
theorem get_default_guild_license_role_id_fails_witness :
    get_default_guild_license_role_id 999 (Conn.fromFile emptyDB)
      = (.error .typeError, Conn.fromFile emptyDB) ∧
    get_default_guild_license_role_id 5
        (Conn.fromFile { emptyDB with guilds := [{ guild_id := 5 }] })
      = (.error .typeError,
        Conn.fromFile { emptyDB with guilds := [{ guild_id := 5 }] }) :=
  ⟨(get_default_guild_license_role_id_fails 999 (Conn.fromFile emptyDB)).1
      (by decide),
   (get_default_guild_license_role_id_fails 5
      (Conn.fromFile { emptyDB with guilds := [{ guild_id := 5 }] })).2
      { guild_id := 5 } rfl rfl⟩

/-- Witness for the amended C6: limit 2 on a store holding one matching
license. -/
theorem get_guild_licenses_bounded_witness :
    ∃ ls, get_guild_licenses 2 1 7 limitDemoConn = (.ok ls, limitDemoConn) ∧
      (ls.length : Int) ≤ 2 ∧
      (∀ l ∈ ls, ∃ r ∈ limitDemoConn.pending.guild_licenses,
        r.license = l ∧ r.guild_id = 1 ∧ r.licensed_role_id = 7) ∧
      ((∀ r ∈ limitDemoConn.pending.guild_licenses,
          ¬(r.guild_id = 1 ∧ r.licensed_role_id = 7)) → ls = []) :=
  get_guild_licenses_bounded 2 1 7 limitDemoConn (by decide)

/-- Witness for C7: opening the logical name `main` twice on an empty
filesystem. -/
theorem open_twice_idempotent_witness :
    ∃ c1 fs1, _get_connection (fun _ => none) "main" = (.ok c1, fs1) ∧
      c1.committed.tables = ["GUILDS", "LICENSED_MEMBERS", "GUILD_LICENSES"] ∧
      c1.pending = c1.committed ∧
      _get_connection fs1 "main" = (.ok c1, fs1) :=
  open_twice_idempotent (fun _ => none) "main" rfl

/-- Witness for C9: deleting the stored code `"k"` of guild 3 while naming
guild 4. -/
theorem drop_wrong_guild_frame_witness :
    drop_guild_license "k" 4
        (Conn.fromFile { emptyDB with guild_licenses := [⟨"k", 3, 9⟩] }) =
      (.ok (), Conn.fromFile { emptyDB with guild_licenses := [⟨"k", 3, 9⟩] }) :=
  drop_wrong_guild_frame "k" 3 4
    (Conn.fromFile { emptyDB with guild_licenses := [⟨"k", 3, 9⟩] })
    rfl (by decide) (by decide)
